import Mathlib

/-!
Verification of the CV-Analyzer service (`src/app.py`) against its
specification.  The Flask route `analyze_cv`, the two text extractors and the
DeepSeek client `call_deepseek_api` are shallowly embedded below.  Library
behaviour that the Python code delegates (the `fitz`/`python-docx` parsers,
`requests`, `json.loads`) is represented by explicit environment data, and
each Python string operation that matters is modelled at the character-list
level, as documented on the corresponding definition.
-/

namespace CVAnalyzer

/-- A decoded JSON value, as produced by Python's `json` module:
objects are key/value lists (already deduplicated, as `json.loads` yields a
`dict`), arrays are lists, numbers are modelled as integers (the service only
ever inspects structure, never numeric values). -/
inductive Json where
  | null
  | bool (b : Bool)
  | num (n : Int)
  | str (s : String)
  | arr (elems : List Json)
  | obj (entries : List (String × Json))

/-- `True` iff the value is a JSON object carrying key `k`
(Python `k in d`). -/
def Json.hasKey (j : Json) (k : String) : Bool :=
  match j with
  | .obj entries => entries.any (fun kv => kv.1 == k)
  | _ => false

/-- The Python type name of a value, as it appears in `TypeError` texts. -/
def Json.pyTypeName : Json → String
  | .null => "NoneType"
  | .bool _ => "bool"
  | .num _ => "int"
  | .str _ => "str"
  | .arr _ => "list"
  | .obj _ => "dict"

/-- The Python exceptions that can flow through `call_deepseek_api`; each
constructor carries `str(e)`.  `requestsJSONDecodeError` is the exception
raised by `response.json()` on an undecodable body: since requests 2.27 it is
`requests.exceptions.JSONDecodeError`, a subclass of both
`requests.exceptions.InvalidJSONError` (hence of `RequestException`) and of
`json.JSONDecodeError`. -/
inductive PyExc where
  | requestException (msg : String)
  | requestsJSONDecodeError (msg : String)
  | keyError (msg : String)
  | indexError (msg : String)
  | typeError (msg : String)
  | exception (msg : String)

/-- `str(e)` of the exception. -/
def PyExc.str : PyExc → String
  | .requestException m | .requestsJSONDecodeError m | .keyError m
  | .indexError m | .typeError m | .exception m => m

/-- Whether the exception is an instance of
`requests.exceptions.RequestException`, i.e. is caught by the first `except`
clause of `call_deepseek_api` (src/app.py line 67).  The JSON-decode error
raised by `response.json()` counts: `requests.exceptions.JSONDecodeError`
subclasses `InvalidJSONError`, itself a `RequestException` (requests ≥ 2.27). -/
def PyExc.isRequestException : PyExc → Bool
  | .requestException _ => true
  | .requestsJSONDecodeError _ => true
  | _ => false

/-- Whether the exception matches the second `except` clause
`(KeyError, IndexError, json.JSONDecodeError)` (src/app.py line 69). -/
def PyExc.isParseClauseMatch : PyExc → Bool
  | .keyError _ | .indexError _ | .requestsJSONDecodeError _ => true
  | _ => false

/-- Python subscripting `j[k]` with a string key: dict lookup raising
`KeyError` (whose `str` is the quoted key) when the key is absent;
`TypeError` on every non-dict value. -/
def Json.getKey (j : Json) (k : String) : Except PyExc Json :=
  match j with
  | .obj entries =>
    match entries.lookup k with
    | some v => .ok v
    | none => .error (.keyError ("\x27" ++ k ++ "\x27"))
  | .str _ => .error (.typeError "string indices must be integers")
  | .arr _ => .error (.typeError "list indices must be integers or slices, not str")
  | j => .error (.typeError ("\x27" ++ j.pyTypeName ++ "\x27 object is not subscriptable"))

/-- Python subscripting `j[i]` with an integer index: list indexing raising
`IndexError` when out of range; on a dict `d[i]` is a lookup with the integer
key `i`, absent from any `json.loads` result (whose keys are strings), hence
`KeyError`; on a string it yields the character at `i`; `TypeError`
otherwise. -/
def Json.getIdx (j : Json) (i : Nat) : Except PyExc Json :=
  match j with
  | .arr elems =>
    match elems[i]? with
    | some v => .ok v
    | none => .error (.indexError "list index out of range")
  | .obj _ => .error (.keyError (toString i))
  | .str s =>
    match s.data[i]? with
    | some c => .ok (.str (String.mk [c]))
    | none => .error (.indexError "string index out of range")
  | j => .error (.typeError ("\x27" ++ j.pyTypeName ++ "\x27 object is not subscriptable"))

/-- The access chain `result["choices"][0]["message"]["content"]`
(src/app.py line 65). -/
def extractContent (result : Json) : Except PyExc Json := do
  let choices ← result.getKey "choices"
  let choice0 ← choices.getIdx 0
  let message ← choice0.getKey "message"
  message.getKey "content"

/-- The observable outcome of `requests.post` + `raise_for_status()` +
`response.json()` for one request, supplied as environment data:
`transportError` covers a raised transport failure or a non-2xx status
(`raise_for_status`), `undecodableBody` a 2xx response whose body
`response.json()` cannot decode, `decodedBody` a 2xx response whose body
decodes to the given value. -/
inductive UpstreamOutcome where
  | transportError (desc : String)
  | undecodableBody (desc : String)
  | decodedBody (result : Json)

/-- `call_deepseek_api` (src/app.py lines 41-70).  The `try` block either
obtains the decoded response and extracts
`result["choices"][0]["message"]["content"]`, or raises; the two `except`
clauses are then tried in source order — `RequestException` first, then
`(KeyError, IndexError, json.JSONDecodeError)` — re-raising
`Exception("DeepSeek API request failed: ...")` resp.
`Exception("Failed to parse DeepSeek API response: ...")`; any other
exception propagates unchanged. -/
def call_deepseek_api (prompt : String) (upstream : UpstreamOutcome) :
    Except PyExc Json :=
  let tryBlock : Except PyExc Json :=
    match upstream with
    | .transportError d => .error (.requestException d)
    | .undecodableBody d => .error (.requestsJSONDecodeError d)
    | .decodedBody result => extractContent result
  match prompt, tryBlock with
  | _, .ok content => .ok content
  | _, .error e =>
    if e.isRequestException then
      .error (.exception ("DeepSeek API request failed: " ++ e.str))
    else if e.isParseClauseMatch then
      .error (.exception ("Failed to parse DeepSeek API response: " ++ e.str))
    else
      .error e

/-- Python `sep.join(xs)`: the pieces in order with `sep` between consecutive
pieces and nothing at either end. -/
def pyJoin (sep : String) : List String → String
  | [] => ""
  | [x] => x
  | x :: y :: xs => x ++ sep ++ pyJoin sep (y :: xs)

/-- Python `s.startswith(p)`, at the character level: the characters of `p`
are a prefix of those of `s`. -/
def pyStartswith (s p : String) : Bool :=
  p.data.isPrefixOf s.data

/-- Python `s.lower()`, at the character level (the service only meets ASCII
extensions, where Python and `Char.toLower` agree). -/
def pyLower (s : String) : String :=
  String.mk (s.data.map Char.toLower)

/-- A PDF as `fitz` presents it: `page.get_text()` for each page, in page
order. -/
structure PdfDoc where
  pages : List String

/-- A paragraph of a DOCX as `python-docx` presents it (`p.text`). -/
structure Paragraph where
  text : String

/-- A DOCX as `python-docx` presents it: its paragraphs in document order. -/
structure DocxDoc where
  paragraphs : List Paragraph

/-- Outcome of handing a byte stream to a document parser: either the parsed
document, or a raised exception with `str(e) = msg`. -/
inductive ParseResult (α : Type) where
  | ok (doc : α)
  | exn (msg : String)

/-- `extract_text_from_pdf` (src/app.py lines 24-31): on success
`"".join(page.get_text() for page in doc)`; a raised exception is caught and
turned into the sentinel string `"Error reading PDF: " + str(e)`. -/
def extract_text_from_pdf (pdf : ParseResult PdfDoc) : String :=
  match pdf with
  | .ok doc => pyJoin "" doc.pages
  | .exn e => "Error reading PDF: " ++ e

/-- `extract_text_from_docx` (src/app.py lines 33-39): on success
`"\n".join(p.text for p in document.paragraphs)`; a raised exception is
caught and turned into `"Error reading DOCX: " + str(e)`. -/
def extract_text_from_docx (dx : ParseResult DocxDoc) : String :=
  match dx with
  | .ok document => pyJoin "\n" (document.paragraphs.map Paragraph.text)
  | .exn e => "Error reading DOCX: " ++ e

/-- The uploaded file of one request: its `filename`, together with what each
of the two parsers would do on its bytes (environment data standing for
`fitz.open(...)` resp. `Document(...)` applied to the uploaded stream). -/
structure UploadedFile where
  filename : String
  pdfParse : ParseResult PdfDoc
  docxParse : ParseResult DocxDoc

/-- One request to `POST /analyze_cv`: `none` components model
`"cv_file" not in request.files` resp.
`"job_description" not in request.form`. -/
structure Request where
  cv_file : Option UploadedFile
  job_description : Option String

/-- The remaining per-request environment: the upstream API outcome and the
behaviour of `json.loads` on strings (its error carries
`str(JSONDecodeError)`). -/
structure Env where
  upstream : UpstreamOutcome
  loads : String → Except String Json

/-- A response body: either `jsonify({"error": msg})` or `jsonify(ai_result)`
for a decoded JSON value. -/
inductive RouteBody where
  | errorBody (msg : String)
  | jsonBody (j : Json)

/-- The observable result of the route: HTTP status, body, and whether
`call_deepseek_api` was invoked on the way. -/
structure RouteResponse where
  status : Nat
  body : RouteBody
  apiCalled : Bool

/-- The 400 response of src/app.py line 76. -/
def missingFieldsResp : RouteResponse :=
  { status := 400
    body := .errorBody "Missing CV file or job description"
    apiCalled := false }

/-- The 415 response of src/app.py line 91. -/
def unsupportedTypeResp : RouteResponse :=
  { status := 415
    body := .errorBody "Unsupported file type. Please upload a PDF or DOCX."
    apiCalled := false }

/-- `cv_file.filename.split(".")[-1].lower()` (src/app.py line 80):
Python `split` on a dotless string yields the whole string as its only
piece, so the last piece is the suffix after the last dot when a dot exists
and the whole filename otherwise. -/
def routeExtension (filename : String) : String :=
  pyLower (String.mk ((filename.data.splitOn '.').getLastD []))

/-- The extension dispatch of src/app.py lines 86-91: which extractor runs on
the upload, `none` meaning the unsupported-type branch (no extractor runs). -/
def routeExtract (f : UploadedFile) : Option String :=
  let file_extension := routeExtension f.filename
  if file_extension = "pdf" then
    some (extract_text_from_pdf f.pdfParse)
  else if file_extension = "doc" ∨ file_extension = "docx" then
    some (extract_text_from_docx f.docxParse)
  else
    none

/-- The f-string prompt of src/app.py lines 97-117, with `cv_text` and
`job_description` interpolated verbatim. -/
def buildPrompt (cv_text job_description : String) : String :=
  "\n    You are an expert HR CV analyst. Compare the Candidate CV with the Job Description (JD).\n    \n    **CANDIDATE CV TEXT:**\n    ---\n    "
    ++ cv_text
    ++ "\n    ---\n\n    **JOB DESCRIPTION (JD):**\n    ---\n    "
    ++ job_description
    ++ "\n    ---\n\n    Generate a JSON response with the following four keys ONLY:\n    1.  **fit_score_percent**: (Integer 0-100) The numerical match percentage.\n    2.  **summary**: (String) A 3-sentence summary of the CV\x27s alignment.\n    3.  **issues_to_update**: (List of Strings) 3-5 specific, actionable bullet points the user must update or add to their CV (e.g., \"Add quantified results for your experience.\").\n    4.  **alternative_summary**: (String) A new, best-alternative professional summary (4-6 lines) written for the CV, optimized specifically for this JD.\n    \n    Output ONLY the valid JSON object. Do not include any other text or markdown formatting.\n    "

/-- The `try` block of src/app.py lines 119-130: call the API, `json.loads`
the returned text, answer 200 with the decoded object; every exception
raised inside — from `call_deepseek_api` or from `json.loads` (including the
`TypeError` when the returned content is not a string) — is caught by the
bare `except Exception` and answered as 500 with the exception text. -/
def analysisStep (prompt : String) (env : Env) : RouteResponse :=
  match call_deepseek_api prompt env.upstream with
  | .error e =>
    { status := 500
      body := .errorBody ("AI analysis failed due to a server error. Details: " ++ e.str)
      apiCalled := true }
  | .ok ai_response =>
    match ai_response with
    | .str s =>
      match env.loads s with
      | .ok ai_result => { status := 200, body := .jsonBody ai_result, apiCalled := true }
      | .error m =>
        { status := 500
          body := .errorBody ("AI analysis failed due to a server error. Details: " ++ m)
          apiCalled := true }
    | other =>
      { status := 500
        body := .errorBody ("AI analysis failed due to a server error. Details: the JSON object must be str, bytes or bytearray, not " ++ other.pyTypeName)
        apiCalled := true }

/-- The route `POST /analyze_cv` (src/app.py lines 73-130): 400 when either
field is missing, then extension dispatch (415 when unsupported), then the
`"Error"`-sentinel check on the extracted text (500 without calling the API),
then prompt composition and the analysis step. -/
def analyze_cv (req : Request) (env : Env) : RouteResponse :=
  match req.cv_file, req.job_description with
  | some cv_file, some job_description =>
    match routeExtract cv_file with
    | none => unsupportedTypeResp
    | some cv_text =>
      if pyStartswith cv_text "Error" then
        { status := 500
          body := .errorBody ("Failed to parse CV: " ++ cv_text)
          apiCalled := false }
      else
        analysisStep (buildPrompt cv_text job_description) env
  | _, _ => missingFieldsResp

/-- An environment for scenarios that never reach the upstream call. -/
def dummyEnv : Env :=
  { upstream := .transportError "unused"
    loads := fun _ => .error "unused" }

/-- A one-page PDF upload named `resume.pdf` whose page text is `CVTEXT`. -/
def c1File : UploadedFile :=
  { filename := "resume.pdf"
    pdfParse := .ok ⟨["CVTEXT"]⟩
    docxParse := .exn "File is not a zip file" }

def c1Req : Request :=
  { cv_file := some c1File, job_description := some "Backend engineer" }

/-- An upstream answering 200 with a well-shaped completion whose content text
is `"\x7b\x7d"` (the two-character string `\x7b\x7d`), and a `json.loads`
decoding exactly that text to the empty JSON object. -/
def c1Env : Env :=
  { upstream := .decodedBody
      (.obj [("choices", .arr [.obj [("message", .obj [("content", .str "\x7b\x7d")])]])])
    loads := fun s =>
      if s = "\x7b\x7d" then .ok (.obj [])
      else .error "Expecting value: line 1 column 1 (char 0)" }

def c3File : UploadedFile :=
  { filename := "resume.pdf"
    pdfParse := .ok ⟨["Senior Engineer, 5 years Python"]⟩
    docxParse := .exn "File is not a zip file" }

def c3Req : Request :=
  { cv_file := some c3File, job_description := some "Need a backend engineer" }

def c3Env : Env :=
  { upstream := .transportError "Connection refused"
    loads := fun _ => .error "unused" }

/-- A corrupt upload named `broken.pdf`: `fitz.open` raises on its bytes. -/
def c4File : UploadedFile :=
  { filename := "broken.pdf"
    pdfParse := .exn "Failed to open stream"
    docxParse := .exn "File is not a zip file" }

def c4Req : Request :=
  { cv_file := some c4File, job_description := some "Any role" }

def c5File : UploadedFile :=
  { filename := "resume.txt"
    pdfParse := .ok ⟨["irrelevant"]⟩
    docxParse := .ok ⟨[⟨"irrelevant"⟩]⟩ }

def c5Req : Request :=
  { cv_file := some c5File, job_description := some "Any role" }

def c6Req : Request :=
  { cv_file := none, job_description := some "Any role" }

/-- A DOCX upload that parses fine but whose own first paragraph starts with
the word `Error`. -/
def c9File : UploadedFile :=
  { filename := "cv.docx"
    pdfParse := .exn "Failed to open stream"
    docxParse := .ok ⟨[⟨"Error handling specialist"⟩, ⟨"5 years experience"⟩]⟩ }

def c9Req : Request :=
  { cv_file := some c9File, job_description := some "Support engineer" }

/-- An upload whose filename is literally `PDF`, with no dot. -/
def c10File : UploadedFile :=
  { filename := "PDF"
    pdfParse := .ok ⟨["page one"]⟩
    docxParse := .exn "File is not a zip file" }

def c10Req : Request :=
  { cv_file := some c10File, job_description := some "Any role" }

end CVAnalyzer

namespace CVAnalyzer

/-! ### Helper lemmas -/

theorem pyStartswith_append_left (p t : String) : pyStartswith (p ++ t) p = true := by
  unfold pyStartswith
  rw [String.data_append]
  simp

theorem pyJoin_empty_cons (x : String) (xs : List String) :
    pyJoin "" (x :: xs) = x ++ pyJoin "" xs := by
  cases xs with
  | nil => simp [pyJoin]
  | cons y ys => simp [pyJoin]

theorem foldl_append_eq_pyJoin (xs : List String) :
    ∀ a : String, xs.foldl (fun r s => r ++ s) a = a ++ pyJoin "" xs := by
  induction xs with
  | nil => intro a; simp [pyJoin]
  | cons x xs ih =>
    intro a
    simp only [List.foldl_cons]
    rw [ih, pyJoin_empty_cons, String.append_assoc]

theorem pyJoin_empty_eq_join (xs : List String) : pyJoin "" xs = String.join xs := by
  unfold String.join
  rw [foldl_append_eq_pyJoin]
  simp

theorem pyJoin_shift (s acc a : String) (as : List String) :
    pyJoin s ((acc ++ s ++ a) :: as) = acc ++ s ++ pyJoin s (a :: as) := by
  cases as with
  | nil => rfl
  | cons b bs => simp [pyJoin, String.append_assoc]

theorem intercalate_go_eq (s : String) (as : List String) :
    ∀ acc, String.intercalate.go acc s as = pyJoin s (acc :: as) := by
  induction as with
  | nil => intro acc; rfl
  | cons a as ih =>
    intro acc
    show String.intercalate.go (acc ++ s ++ a) s as = _
    rw [ih]
    exact pyJoin_shift s acc a as

theorem intercalate_eq_pyJoin (s : String) (xs : List String) :
    String.intercalate s xs = pyJoin s xs := by
  cases xs with
  | nil => rfl
  | cons a as =>
    show String.intercalate.go a s as = _
    rw [intercalate_go_eq]

theorem routeExtension_no_dot (filename : String)
    (h : ∀ c ∈ filename.data, c ≠ '.') :
    routeExtension filename = pyLower filename := by
  obtain ⟨l⟩ := filename
  unfold routeExtension
  have hs : l.splitOn '.' = [l] := by
    unfold List.splitOn
    exact List.splitOnP_eq_single _ _ (fun x hx => by simpa using h x hx)
  show pyLower (String.mk (((String.mk l).data.splitOn '.').getLastD [])) = _
  rw [show (String.mk l).data = l from rfl, hs]
  rfl

theorem analyze_cv_some (req : Request) (env : Env) (f : UploadedFile) (jd : String)
    (hc : req.cv_file = some f) (hj : req.job_description = some jd) :
    analyze_cv req env =
      (match routeExtract f with
       | none => unsupportedTypeResp
       | some cv_text =>
         if pyStartswith cv_text "Error" then
           { status := 500
             body := .errorBody ("Failed to parse CV: " ++ cv_text)
             apiCalled := false }
         else analysisStep (buildPrompt cv_text jd) env) := by
  unfold analyze_cv
  rw [hc, hj]

theorem route_sentinel (req : Request) (env : Env) (f : UploadedFile)
    (jd cv_text : String)
    (hc : req.cv_file = some f) (hj : req.job_description = some jd)
    (hx : routeExtract f = some cv_text)
    (hsw : pyStartswith cv_text "Error" = true) :
    analyze_cv req env =
      { status := 500
        body := .errorBody ("Failed to parse CV: " ++ cv_text)
        apiCalled := false } := by
  rw [analyze_cv_some req env f jd hc hj, hx]
  simp [hsw]

theorem route_api (req : Request) (env : Env) (f : UploadedFile)
    (jd cv_text : String)
    (hc : req.cv_file = some f) (hj : req.job_description = some jd)
    (hx : routeExtract f = some cv_text)
    (hsw : pyStartswith cv_text "Error" = false) :
    analyze_cv req env = analysisStep (buildPrompt cv_text jd) env := by
  rw [analyze_cv_some req env f jd hc hj, hx]
  simp [hsw]

theorem analysisStep_ok_str (prompt : String) (env : Env) (s : String)
    (hcall : call_deepseek_api prompt env.upstream = .ok (.str s)) :
    analysisStep prompt env =
      (match env.loads s with
       | .ok ai_result => { status := 200, body := .jsonBody ai_result, apiCalled := true }
       | .error m =>
         { status := 500
           body := .errorBody ("AI analysis failed due to a server error. Details: " ++ m)
           apiCalled := true }) := by
  unfold analysisStep
  rw [hcall]

/-! ### The claims -/

/-- C6: for every request on POST /analyze_cv in which the `cv_file` upload
field or the `job_description` form field is absent, the response is 400 with
a JSON error body, regardless of any other content of the request. -/
theorem C6_missing_fields_400 (req : Request) (env : Env)
    (h : req.cv_file = none ∨ req.job_description = none) :
    (analyze_cv req env).status = 400 ∧
    (analyze_cv req env).body = .errorBody "Missing CV file or job description" ∧
    (analyze_cv req env).apiCalled = false := by
  have hres : analyze_cv req env = missingFieldsResp := by
    unfold analyze_cv
    split
    · rename_i cvf jdv heq
      rcases h with h | h <;> simp_all
    · rfl
  rw [hres]
  exact ⟨rfl, rfl, rfl⟩

/-- C6 witness: a request with no uploaded file is answered 400. -/
theorem C6_missing_fields_400_witness :
    (analyze_cv c6Req dummyEnv).status = 400 ∧
    (analyze_cv c6Req dummyEnv).body = .errorBody "Missing CV file or job description" ∧
    (analyze_cv c6Req dummyEnv).apiCalled = false :=
  C6_missing_fields_400 c6Req dummyEnv (Or.inl rfl)

/-- C5: for every request carrying both fields whose computed extension —
`filename.split(".")[-1].lower()`, the lower-cased suffix after the last
dot — is none of pdf, doc, docx, the response is 415 and neither extraction
function is invoked (`routeExtract` takes its `none` branch, which runs no
extractor). -/
theorem C5_unsupported_extension_415 (req : Request) (env : Env)
    (f : UploadedFile) (jd : String)
    (hc : req.cv_file = some f) (hj : req.job_description = some jd)
    (h1 : routeExtension f.filename ≠ "pdf")
    (h2 : routeExtension f.filename ≠ "doc")
    (h3 : routeExtension f.filename ≠ "docx") :
    (analyze_cv req env).status = 415 ∧
    (analyze_cv req env).body =
      .errorBody "Unsupported file type. Please upload a PDF or DOCX." ∧
    routeExtract f = none := by
  have hx : routeExtract f = none := by
    unfold routeExtract
    simp [h1, h2, h3]
  have hres : analyze_cv req env = unsupportedTypeResp := by
    rw [analyze_cv_some req env f jd hc hj, hx]
  rw [hres]
  exact ⟨rfl, rfl, hx⟩

/-- C5 witness: a `.txt` upload is answered 415 with no extraction. -/
theorem C5_unsupported_extension_415_witness :
    (analyze_cv c5Req dummyEnv).status = 415 ∧
    (analyze_cv c5Req dummyEnv).body =
      .errorBody "Unsupported file type. Please upload a PDF or DOCX." ∧
    routeExtract c5File = none :=
  C5_unsupported_extension_415 c5Req dummyEnv c5File "Any role" rfl rfl
    (by decide) (by decide) (by decide)

/-- C7: for every well-formed PDF, the extracted text is the concatenation of
the page texts in page order (`String.join`), and page by page no separator
is inserted between a page and the remaining pages. -/
theorem C7_pdf_concatenation (pages : List String) :
    extract_text_from_pdf (.ok ⟨pages⟩) = String.join pages ∧
    ∀ (p : String) (rest : List String),
      extract_text_from_pdf (.ok ⟨p :: rest⟩) =
        p ++ extract_text_from_pdf (.ok ⟨rest⟩) := by
  constructor
  · exact pyJoin_empty_eq_join pages
  · intro p rest
    exact pyJoin_empty_cons p rest

/-- C8: for every well-formed DOCX, the extracted text is the paragraph texts
joined by newlines in document order; paragraph by paragraph, each non-final
paragraph contributes its text followed by one newline, and an empty
paragraph contributes an empty line (concrete three-paragraph instance). -/
theorem C8_docx_newline_join (document : DocxDoc) :
    extract_text_from_docx (.ok document) =
      String.intercalate "\n" (document.paragraphs.map Paragraph.text) ∧
    (∀ (p : Paragraph) (rest : List Paragraph),
      extract_text_from_docx (.ok ⟨p :: rest⟩) =
        p.text ++
          (if rest.isEmpty then "" else "\n" ++ extract_text_from_docx (.ok ⟨rest⟩))) ∧
    extract_text_from_docx (.ok ⟨[⟨"first"⟩, ⟨""⟩, ⟨"third"⟩]⟩) = "first\n\nthird" := by
  refine ⟨(intercalate_eq_pyJoin _ _).symm, ?_, rfl⟩
  intro p rest
  cases rest with
  | nil => simp [extract_text_from_docx, pyJoin]
  | cons q qs =>
    show pyJoin "\n" (p.text :: q.text :: qs.map Paragraph.text) = _
    simp [pyJoin, extract_text_from_docx, String.append_assoc]

/-- C9: there is an upload whose extraction succeeds but whose extracted text
itself begins with `Error`: the route then answers 500 `Failed to parse CV`
and never calls the external API, although no parser failure occurred.
Concretely: a DOCX parsing to the paragraphs `Error handling specialist` and
`5 years experience`. -/
theorem C9_inband_error_sentinel :
    c9File.docxParse =
      .ok ⟨[⟨"Error handling specialist"⟩, ⟨"5 years experience"⟩]⟩ ∧
    extract_text_from_docx c9File.docxParse =
      "Error handling specialist\n5 years experience" ∧
    (analyze_cv c9Req dummyEnv).status = 500 ∧
    (analyze_cv c9Req dummyEnv).body =
      .errorBody "Failed to parse CV: Error handling specialist\n5 years experience" ∧
    (analyze_cv c9Req dummyEnv).apiCalled = false :=
  ⟨rfl, rfl, rfl, rfl, rfl⟩

/-- C4: for every pdf, doc or docx upload whose parsing raises, the extractor
returns a string beginning with `Error` instead of raising, and the route
answers 500 — never a 2xx — with a body referencing the parser failure. -/
theorem C4_extraction_failure_500 (req : Request) (env : Env)
    (f : UploadedFile) (jd e : String)
    (hc : req.cv_file = some f) (hj : req.job_description = some jd) :
    (routeExtension f.filename = "pdf" → f.pdfParse = .exn e →
      pyStartswith (extract_text_from_pdf f.pdfParse) "Error" = true ∧
      (analyze_cv req env).status = 500 ∧
      (analyze_cv req env).body =
        .errorBody ("Failed to parse CV: " ++ ("Error reading PDF: " ++ e)) ∧
      ¬(200 ≤ (analyze_cv req env).status ∧ (analyze_cv req env).status ≤ 299)) ∧
    ((routeExtension f.filename = "doc" ∨ routeExtension f.filename = "docx") →
      f.docxParse = .exn e →
      pyStartswith (extract_text_from_docx f.docxParse) "Error" = true ∧
      (analyze_cv req env).status = 500 ∧
      (analyze_cv req env).body =
        .errorBody ("Failed to parse CV: " ++ ("Error reading DOCX: " ++ e)) ∧
      ¬(200 ≤ (analyze_cv req env).status ∧ (analyze_cv req env).status ≤ 299)) := by
  have hswPdf : pyStartswith ("Error reading PDF: " ++ e) "Error" = true := by
    rw [show ("Error reading PDF: " : String) = "Error" ++ " reading PDF: " from rfl,
      String.append_assoc]
    exact pyStartswith_append_left _ _
  have hswDocx : pyStartswith ("Error reading DOCX: " ++ e) "Error" = true := by
    rw [show ("Error reading DOCX: " : String) = "Error" ++ " reading DOCX: " from rfl,
      String.append_assoc]
    exact pyStartswith_append_left _ _
  constructor
  · intro hext hparse
    have hcv : extract_text_from_pdf f.pdfParse = "Error reading PDF: " ++ e := by
      rw [hparse]
      rfl
    have hx : routeExtract f = some ("Error reading PDF: " ++ e) := by
      unfold routeExtract
      simp [hext, hcv]
    have hres := route_sentinel req env f jd _ hc hj hx hswPdf
    rw [hcv, hres]
    refine ⟨hswPdf, rfl, rfl, ?_⟩
    show ¬(200 ≤ 500 ∧ 500 ≤ 299)
    decide
  · intro hext hparse
    have hcv : extract_text_from_docx f.docxParse = "Error reading DOCX: " ++ e := by
      rw [hparse]
      rfl
    have hx : routeExtract f = some ("Error reading DOCX: " ++ e) := by
      unfold routeExtract
      rcases hext with hext | hext <;> rw [hext] <;> simp [hcv]
    have hres := route_sentinel req env f jd _ hc hj hx hswDocx
    rw [hcv, hres]
    refine ⟨hswDocx, rfl, rfl, ?_⟩
    show ¬(200 ≤ 500 ∧ 500 ≤ 299)
    decide

/-- C4 witness: a pdf upload on which `fitz.open` raises
`Failed to open stream` is answered 500 with the parser failure embedded. -/
theorem C4_extraction_failure_500_witness :
    pyStartswith (extract_text_from_pdf c4File.pdfParse) "Error" = true ∧
    (analyze_cv c4Req dummyEnv).status = 500 ∧
    (analyze_cv c4Req dummyEnv).body =
      .errorBody ("Failed to parse CV: " ++
        ("Error reading PDF: " ++ "Failed to open stream")) ∧
    ¬(200 ≤ (analyze_cv c4Req dummyEnv).status ∧
       (analyze_cv c4Req dummyEnv).status ≤ 299) :=
  (C4_extraction_failure_500 c4Req dummyEnv c4File "Any role"
    "Failed to open stream" rfl rfl).1 rfl rfl

/-- C3: for every request reaching the upstream call, a transport error
(network failure or non-2xx status, both raised as `RequestException`) makes
the route answer 500, never a 2xx, with a JSON error string carrying the
underlying failure description `d` verbatim. -/
theorem C3_transport_error_500 (req : Request) (env : Env)
    (f : UploadedFile) (jd cv_text d : String)
    (hc : req.cv_file = some f) (hj : req.job_description = some jd)
    (hx : routeExtract f = some cv_text)
    (he : pyStartswith cv_text "Error" = false)
    (hu : env.upstream = .transportError d) :
    (analyze_cv req env).status = 500 ∧
    (analyze_cv req env).body =
      .errorBody ("AI analysis failed due to a server error. Details: " ++
        ("DeepSeek API request failed: " ++ d)) ∧
    (analyze_cv req env).apiCalled = true ∧
    ¬(200 ≤ (analyze_cv req env).status ∧ (analyze_cv req env).status ≤ 299) := by
  have hres : analyze_cv req env =
      { status := 500
        body := .errorBody ("AI analysis failed due to a server error. Details: " ++
          ("DeepSeek API request failed: " ++ d))
        apiCalled := true } := by
    rw [route_api req env f jd cv_text hc hj hx he]
    unfold analysisStep call_deepseek_api
    rw [hu]
    rfl
  rw [hres]
  refine ⟨rfl, rfl, rfl, ?_⟩
  show ¬(200 ≤ 500 ∧ 500 ≤ 299)
  decide

/-- C3 witness: with the upstream raising `Connection refused`, a well-formed
pdf request is answered 500 carrying that description. -/
theorem C3_transport_error_500_witness :
    (analyze_cv c3Req c3Env).status = 500 ∧
    (analyze_cv c3Req c3Env).body =
      .errorBody ("AI analysis failed due to a server error. Details: " ++
        ("DeepSeek API request failed: " ++ "Connection refused")) ∧
    (analyze_cv c3Req c3Env).apiCalled = true ∧
    ¬(200 ≤ (analyze_cv c3Req c3Env).status ∧ (analyze_cv c3Req c3Env).status ≤ 299) :=
  C3_transport_error_500 c3Req c3Env c3File "Need a backend engineer"
    "Senior Engineer, 5 years Python" "Connection refused" rfl rfl rfl rfl rfl

/-- C1 counterexample: the upstream call succeeds and its returned text is
the valid JSON text `\x7b\x7d` (an object literal), an object lacking all
four expected keys — yet the route answers 200 and passes the malformed
object through unchanged, not 500 as the claim states: lines 119-126 of
src/app.py validate nothing. -/
theorem C1_counterexample :
    (analyze_cv c1Req c1Env).status = 200 ∧
    (analyze_cv c1Req c1Env).body = .jsonBody (.obj []) ∧
    Json.hasKey (.obj []) "fit_score_percent" = false ∧
    Json.hasKey (.obj []) "summary" = false ∧
    Json.hasKey (.obj []) "issues_to_update" = false ∧
    Json.hasKey (.obj []) "alternative_summary" = false :=
  ⟨rfl, rfl, rfl, rfl, rfl, rfl⟩

/-- C1 amended: when the external call succeeds with content text `s`, the
route answers 200 with whatever object `json.loads` decodes `s` to — even one
lacking the four expected keys — and answers 500 exactly when `s` is not
valid JSON. -/
theorem C1_amended_passthrough (req : Request) (env : Env)
    (f : UploadedFile) (jd cv_text s : String)
    (hc : req.cv_file = some f) (hj : req.job_description = some jd)
    (hx : routeExtract f = some cv_text)
    (he : pyStartswith cv_text "Error" = false)
    (hcall : call_deepseek_api (buildPrompt cv_text jd) env.upstream = .ok (.str s)) :
    (∀ j : Json, env.loads s = .ok j →
      analyze_cv req env = { status := 200, body := .jsonBody j, apiCalled := true }) ∧
    (∀ m : String, env.loads s = .error m →
      (analyze_cv req env).status = 500 ∧
      (analyze_cv req env).body =
        .errorBody ("AI analysis failed due to a server error. Details: " ++ m)) := by
  have hres : analyze_cv req env = analysisStep (buildPrompt cv_text jd) env :=
    route_api req env f jd cv_text hc hj hx he
  have hs := analysisStep_ok_str (buildPrompt cv_text jd) env s hcall
  constructor
  · intro j hl
    rw [hres, hs, hl]
  · intro m hl
    have hstep : analysisStep (buildPrompt cv_text jd) env =
        { status := 500
          body := .errorBody ("AI analysis failed due to a server error. Details: " ++ m)
          apiCalled := true } := by
      rw [hs, hl]
    rw [hres, hstep]
    exact ⟨rfl, rfl⟩

/-- C1 witness: the amended behaviour at the concrete request of the
counterexample — valid JSON content decodes to the empty object and is
answered 200 unchanged. -/
theorem C1_amended_passthrough_witness :
    analyze_cv c1Req c1Env =
      { status := 200, body := .jsonBody (.obj []), apiCalled := true } :=
  (C1_amended_passthrough c1Req c1Env c1File "Backend engineer" "CVTEXT"
    "\x7b\x7d" rfl rfl rfl rfl rfl).1 (.obj []) rfl

/-- C2 counterexample: an upstream 2xx body that `response.json()` cannot
decode raises the requests JSONDecodeError, a RequestException, so the FIRST
except clause fires and `call_deepseek_api` raises the generic
`DeepSeek API request failed` error, not the distinct
`Failed to parse DeepSeek API response` error the claim states. -/
theorem C2_counterexample :
    call_deepseek_api "prompt"
        (.undecodableBody "Expecting value: line 1 column 1 (char 0)") =
      .error (.exception
        "DeepSeek API request failed: Expecting value: line 1 column 1 (char 0)") ∧
    pyStartswith
      "DeepSeek API request failed: Expecting value: line 1 column 1 (char 0)"
      "Failed to parse DeepSeek API response" = false :=
  ⟨rfl, rfl⟩

/-- C2 amended: a decoded body lacking the expected structure — so that the
field access raises a KeyError or IndexError, matched by the second except
clause and by no earlier one — yields the distinct
`Failed to parse DeepSeek API response` error; an undecodable body instead
yields the generic `DeepSeek API request failed` error, because the exception
raised by `response.json()` is a RequestException and the clauses are tried
in source order. -/
theorem C2_amended_error_taxonomy (prompt : String) (j : Json) (e : PyExc)
    (m : String)
    (hj : extractContent j = .error e)
    (hmatch : e.isParseClauseMatch = true)
    (hnot : e.isRequestException = false) :
    call_deepseek_api prompt (.decodedBody j) =
      .error (.exception ("Failed to parse DeepSeek API response: " ++ e.str)) ∧
    call_deepseek_api prompt (.undecodableBody m) =
      .error (.exception ("DeepSeek API request failed: " ++ m)) := by
  constructor
  · simp [call_deepseek_api, hj, hnot, hmatch]
  · rfl

/-- C2 witness: a decoded body with no `choices` key raises the distinct
parse error (carrying the quoted-key text of the KeyError), while an
undecodable body raises the generic request-failed error. -/
theorem C2_amended_error_taxonomy_witness :
    call_deepseek_api "prompt" (.decodedBody (.obj [])) =
      .error (.exception
        ("Failed to parse DeepSeek API response: " ++ "\x27choices\x27")) ∧
    call_deepseek_api "prompt"
        (.undecodableBody "Expecting value: line 1 column 2 (char 1)") =
      .error (.exception
        ("DeepSeek API request failed: " ++ "Expecting value: line 1 column 2 (char 1)")) :=
  C2_amended_error_taxonomy "prompt" (.obj []) (.keyError "\x27choices\x27")
    "Expecting value: line 1 column 2 (char 1)" rfl rfl rfl

/-- C10: for every request whose uploaded filename contains no dot, the route
treats the entire lower-cased filename as the extension: a file literally
named `PDF` (or `doc`/`docx`) is accepted and parsed as that format, while
any other dotless filename is answered 415. -/
theorem C10_dotless_filename (req : Request) (env : Env)
    (f : UploadedFile) (jd : String)
    (hc : req.cv_file = some f) (hj : req.job_description = some jd)
    (hnd : ∀ c ∈ f.filename.data, c ≠ '.') :
    routeExtension f.filename = pyLower f.filename ∧
    (pyLower f.filename = "pdf" →
      routeExtract f = some (extract_text_from_pdf f.pdfParse)) ∧
    ((pyLower f.filename = "doc" ∨ pyLower f.filename = "docx") →
      routeExtract f = some (extract_text_from_docx f.docxParse)) ∧
    (pyLower f.filename ≠ "pdf" → pyLower f.filename ≠ "doc" →
      pyLower f.filename ≠ "docx" →
      (analyze_cv req env).status = 415 ∧ routeExtract f = none) := by
  have hext : routeExtension f.filename = pyLower f.filename :=
    routeExtension_no_dot f.filename hnd
  refine ⟨hext, ?_, ?_, ?_⟩
  · intro hp
    unfold routeExtract
    simp [hext, hp]
  · intro hd
    unfold routeExtract
    rcases hd with hd | hd <;> rw [hext, hd] <;> simp
  · intro h1 h2 h3
    have h1' : routeExtension f.filename ≠ "pdf" := by rw [hext]; exact h1
    have h2' : routeExtension f.filename ≠ "doc" := by rw [hext]; exact h2
    have h3' : routeExtension f.filename ≠ "docx" := by rw [hext]; exact h3
    have hx : routeExtract f = none := by
      unfold routeExtract
      simp [h1', h2', h3']
    have hres : analyze_cv req env = unsupportedTypeResp := by
      rw [analyze_cv_some req env f jd hc hj, hx]
    rw [hres]
    exact ⟨rfl, hx⟩

/-- C10 witness: the dotless filename `PDF` lower-cases to `pdf` and is
parsed as a PDF. -/
theorem C10_dotless_filename_witness :
    routeExtension c10File.filename = pyLower c10File.filename ∧
    routeExtract c10File = some (extract_text_from_pdf c10File.pdfParse) := by
  have h := C10_dotless_filename c10Req dummyEnv c10File "Any role" rfl rfl
    (by decide)
  exact ⟨h.1, h.2.1 rfl⟩

end CVAnalyzer
